import Mathlib

/-!
Shallow embedding of the cmu-courseapi-flask search layer
(`common/utils.py` and `common/search.py`) and proofs about it.

Conventions of the embedding:
* Python `datetime.date` values become `PDate` (year, month, day as
  naturals; Python dates satisfy `1 <= year <= 9999`).  Comparison of
  dates is lexicographic, as in Python.
* Python `str(n)` for a natural number becomes `pyStr n`, built from the
  decimal digits of `n`; the slice `s[2:]` on such a string becomes a
  `List.drop 2` on its digit list.
* The `elasticsearch_dsl` query value `Q(...)` becomes the inductive
  `Query`.  `Q()` is `Query.matchAll` and `q1 & q2` becomes `qand`:
  the DSL drops a `MatchAll` operand and otherwise combines the two
  operands conjunctively (the DSL flattens nested `bool` queries when it
  can; the embedding keeps the conjunction as a two-element `bool`
  `must` node, which carries the same clauses).
* A raw query dict whose values are singleton lists (as built by every
  caller in `search.py`) becomes the record `RawQuery` of optional
  fields; `instructor` keeps the whole list because
  `CourseSearcher.generate_query` joins it with spaces while
  `FCESearcher.generate_query` takes element `[0]`.
* The Elasticsearch client is external: a backend is a function from
  (query, index, size, doc_type, sort) to either a response or one of
  the exceptions `Searcher.fetch` handles.  A computation that lets a
  Python exception escape (KeyError, AttributeError, IndexError, an
  uncaught backend exception) is modelled as `none`.
* The timezone conversion `arrow.Arrow.to('America/New_York')` and the
  parse `arrow.get` are external library calls; the embedding works
  with the already-converted New York civil datetime (`NYDateTime`) and
  takes the parser as a function argument.
-/

namespace CourseApi

/-- A Python `datetime.date`: Python restricts `1 <= year <= 9999`. -/
structure PDate where
  year : Nat
  month : Nat
  day : Nat
deriving DecidableEq, Repr

/-- Python date comparison `a < b` (lexicographic on year, month, day). -/
def dateLt (a b : PDate) : Prop :=
  a.year < b.year ∨ (a.year = b.year ∧
    (a.month < b.month ∨ (a.month = b.month ∧ a.day < b.day)))

/-- Python date comparison `a <= b`. -/
def dateLe (a b : PDate) : Prop :=
  a.year < b.year ∨ (a.year = b.year ∧
    (a.month < b.month ∨ (a.month = b.month ∧ a.day ≤ b.day)))

instance (a b : PDate) : Decidable (dateLt a b) := by
  unfold dateLt; infer_instance

instance (a b : PDate) : Decidable (dateLe a b) := by
  unfold dateLe; infer_instance

/-- Gregorian leap year, as `calendar.isleap` / `datetime` use it. -/
def isLeap (y : Nat) : Prop := y % 4 = 0 ∧ (y % 100 ≠ 0 ∨ y % 400 = 0)

instance (y : Nat) : Decidable (isLeap y) := by
  unfold isLeap; infer_instance

/-- Days in a month of the proleptic Gregorian calendar. -/
def daysInMonth (y m : Nat) : Nat :=
  if m = 2 then (if isLeap y then 29 else 28)
  else if m = 4 ∨ m = 6 ∨ m = 9 ∨ m = 11 then 30
  else 31

/-- The dates `datetime.date` can represent. -/
def ValidDate (d : PDate) : Prop :=
  1 ≤ d.year ∧ d.year ≤ 9999 ∧ 1 ≤ d.month ∧ d.month ≤ 12 ∧
    1 ≤ d.day ∧ d.day ≤ daysInMonth d.year d.month

instance (d : PDate) : Decidable (ValidDate d) := by
  unfold ValidDate; infer_instance

theorem validDate_day_le_31 (d : PDate) (h : ValidDate d) : d.day ≤ 31 := by
  obtain ⟨-, -, -, -, -, h6⟩ := h
  unfold daysInMonth at h6
  split_ifs at h6 <;> omega

/-- Decimal digits of a natural number, fuel-driven so that it reduces
in the kernel; `natDigits` supplies enough fuel. -/
def natDigitsAux : Nat → Nat → List Char
  | 0, _ => []
  | fuel + 1, n =>
    if n < 10 then [Nat.digitChar n]
    else natDigitsAux fuel (n / 10) ++ [Nat.digitChar (n % 10)]

/-- The decimal digit characters of `n`, most significant first: the
model of Python `str(n)` for a natural number `n`. -/
def natDigits (n : Nat) : List Char := natDigitsAux (n + 1) n

/-- Python `str(n)`. -/
def pyStr (n : Nat) : String := String.mk (natDigits n)

theorem natDigitsAux_fuel (f1 : Nat) :
    ∀ f2 n, n < f1 → n < f2 → natDigitsAux f1 n = natDigitsAux f2 n := by
  induction f1 with
  | zero => intro f2 n h1 _; omega
  | succ f ih =>
    intro f2 n h1 h2
    match f2, h2 with
    | f2' + 1, _ =>
      simp only [natDigitsAux]
      by_cases h : n < 10
      · simp [h]
      · simp only [h, if_false]
        have hd : n / 10 < f := by omega
        have hd2 : n / 10 < f2' := by omega
        rw [ih f2' (n / 10) hd hd2]

theorem natDigits_eq (n : Nat) :
    natDigits n =
      if n < 10 then [Nat.digitChar n]
      else natDigits (n / 10) ++ [Nat.digitChar (n % 10)] := by
  by_cases h : n < 10
  · simp [natDigits, natDigitsAux, h]
  · rw [if_neg h]
    show natDigitsAux (n + 1) n = natDigitsAux (n / 10 + 1) (n / 10) ++ _
    have step : natDigitsAux (n + 1) n =
        natDigitsAux n (n / 10) ++ [Nat.digitChar (n % 10)] := by
      simp [natDigitsAux, h]
    rw [step, natDigitsAux_fuel n (n / 10 + 1) (n / 10) (by omega) (by omega)]

theorem digitChar_isDigit (n : Nat) (h : n < 10) :
    (Nat.digitChar n).isDigit = true := by
  interval_cases n <;> decide

theorem natDigits_all_isDigit (n : Nat) :
    ∀ c ∈ natDigits n, c.isDigit = true := by
  induction n using Nat.strong_induction_on with
  | _ n ih =>
    rw [natDigits_eq]
    by_cases h : n < 10
    · simp only [h, if_true]
      intro c hc
      simp only [List.mem_singleton] at hc
      subst hc
      exact digitChar_isDigit n h
    · simp only [h, if_false]
      intro c hc
      rcases List.mem_append.mp hc with hc | hc
      · exact ih (n / 10) (by omega) c hc
      · simp only [List.mem_singleton] at hc
        subst hc
        exact digitChar_isDigit (n % 10) (by omega)

theorem natDigits_four (y : Nat) (h1 : 1000 ≤ y) (h2 : y ≤ 9999) :
    natDigits y =
      [Nat.digitChar (y / 1000), Nat.digitChar (y / 100 % 10),
       Nat.digitChar (y / 10 % 10), Nat.digitChar (y % 10)] := by
  have e1 : y / 10 / 10 = y / 100 := by omega
  have e2 : y / 100 / 10 = y / 1000 := by omega
  rw [natDigits_eq y, if_neg (by omega),
      natDigits_eq (y / 10), if_neg (by omega), e1,
      natDigits_eq (y / 100), if_neg (by omega), e2,
      natDigits_eq (y / 1000), if_pos (by omega)]
  simp

/--
`utils.get_mini`: which of the six date intervals of the academic year a
date falls into (`0` is the fallthrough return value of the Python code).
-/
def get_mini (d : PDate) : Nat :=
  if dateLt ⟨d.year, 8, 20⟩ d ∧ dateLe d ⟨d.year, 10, 15⟩ then 1
  else if dateLt ⟨d.year, 10, 15⟩ d ∧ dateLe d ⟨d.year, 12, 31⟩ then 2
  else if dateLe ⟨d.year, 1, 1⟩ d ∧ dateLe d ⟨d.year, 3, 15⟩ then 3
  else if dateLt ⟨d.year, 3, 15⟩ d ∧ dateLe d ⟨d.year, 5, 15⟩ then 4
  else if dateLt ⟨d.year, 5, 15⟩ d ∧ dateLe d ⟨d.year, 7, 1⟩ then 5
  else if dateLt ⟨d.year, 7, 1⟩ d ∧ dateLe d ⟨d.year, 8, 20⟩ then 6
  else 0

/-- `utils.get_semester_short_from_date`: the short term name, e.g.
`f17`; the year part is Python `str(date.year)[2:]`. -/
def get_semester_short_from_date (d : PDate) : String :=
  (if 1 ≤ get_mini d ∧ get_mini d ≤ 2 then "f"
   else if 3 ≤ get_mini d ∧ get_mini d ≤ 4 then "s"
   else if get_mini d = 5 then "m1"
   else "m2") ++ String.mk ((natDigits d.year).drop 2)

/-- `utils.get_semester_from_date`: the long semester name followed by
`' ' + str(date.year)`. -/
def get_semester_from_date (d : PDate) : String :=
  (if 1 ≤ get_mini d ∧ get_mini d ≤ 2 then "Fall"
   else if 3 ≤ get_mini d ∧ get_mini d ≤ 4 then "Spring"
   else if get_mini d = 5 then "Summer One"
   else "Summer Two") ++ " " ++ pyStr d.year

/-- `utils.get_course_index_from_date`.  The configuration constant
`ES_COURSE_INDEX_PREFIX` lives in `config/es_config.py`, which is not
part of the sources; every definition that needs it takes it as the
argument `pfx`. -/
def get_course_index_from_date (pfx : String) (d : PDate) : String :=
  pfx ++ get_semester_short_from_date d

/-- An `arrow` instant already converted to America/New_York civil time
(the conversion itself is the external tz library).  `minute` is the
minute of the civil day, `hour * 60 + minute`; `strftime` with format
`%I:%M%p` and a shift by a whole number of minutes only observe the
date and the minute of day.  The embedding uses this one civil datetime
wherever the source reads the instant — `get_courses_by_datetime`
derives the index from the instant's date as parsed while
`generate_query` reads it after the New York conversion, a timezone
shift performed by the external library and not modelled here. -/
structure NYDateTime where
  year : Nat
  month : Nat
  day : Nat
  minute : Nat
deriving DecidableEq, Repr

/-- The `date()` part of a New York civil datetime. -/
def NYDateTime.dateOf (dt : NYDateTime) : PDate := ⟨dt.year, dt.month, dt.day⟩

/-- Days since 1970-01-01 of a proleptic Gregorian date (Howard
Hinnant's `days_from_civil`, specialised to `year >= 1` so every
division is on naturals). -/
def daysFromCivil (y m d : Nat) : Int :=
  let y' := if m ≤ 2 then y - 1 else y
  let era := y' / 400
  let yoe := y' % 400
  let doy := (153 * (if 2 < m then m - 3 else m + 9) + 2) / 5 + d - 1
  let doe := yoe * 365 + yoe / 4 + doy - yoe / 100
  (era * 146097 + doe : Int) - 719468

/-- `datetime.isoweekday()`: Monday is `1`, Sunday is `7`. -/
def isoweekday (y m d : Nat) : Nat :=
  (((daysFromCivil y m d + 3) % 7).toNat) + 1

/-- Two zero-padded decimal digits, as `strftime` prints `%I` and `%M`. -/
def twoDigits (n : Nat) : List Char :=
  [Nat.digitChar (n / 10 % 10), Nat.digitChar (n % 10)]

/-- `time.strftime("%I:%M%p")` on the time with this minute of day:
12-hour zero-padded clock with AM/PM. -/
def strftime_IMp (m : Nat) : String :=
  let h := m / 60 % 24
  let h12 := if h % 12 = 0 then 12 else h % 12
  String.mk (twoDigits h12 ++ [':'] ++ twoDigits (m % 60) ++
    (if h < 12 then ['A', 'M'] else ['P', 'M']))

/-- Minute of day of `date_time + timedelta(minutes=span)`: wraps around
midnight, which is why the source notes its day-of-week is then wrong. -/
def shiftedMinutes (m : Nat) (span : Int) : Nat :=
  (((m : Int) + span) % 1440).toNat

/-- The value carried by a `match` clause. -/
inductive MatchVal where
  | str (s : String)
  | nat (n : Nat)
  | obj (q : String) (op : String) (fuzziness : Option String)
deriving DecidableEq, Repr

/-- The value carried by a `range` clause, e.g.
`{'lte': shifted_time, 'format': 'hh:mma'}`. -/
structure RangeParams where
  lte : Option String
  gt : Option String
  format : String
deriving DecidableEq, Repr

/-- The `elasticsearch_dsl` query values `search.py` builds.  Field
names use the Elasticsearch dotted form (`lectures__times__begin` in
the Python keyword syntax is the field `lectures.times.begin`). -/
inductive Query where
  | matchAll
  | term (field : String) (value : String)
  | matchQ (field : String) (value : MatchVal)
  | range (field : String) (params : RangeParams)
  | boolQ (must : List Query) (should : List Query)
  | nested (path : String) (query : Query) (innerHits : Bool)

/-- The DSL conjunction `q1 & q2`: a `MatchAll` operand is dropped,
otherwise the operands land in a `bool` `must`. -/
def qand : Query → Query → Query
  | .matchAll, q => q
  | q, .matchAll => q
  | q1, q2 => .boolQ [q1, q2] []

/-- The DSL disjunction `q1 | q2`: a `bool` `should`. -/
def qor (q1 q2 : Query) : Query := .boolQ [] [q1, q2]

/-- A raw query dict.  Every caller in `search.py` stores singleton
lists as the values, so a field holds the single element directly;
`instructor` keeps the list because `CourseSearcher` joins all its
elements while `FCESearcher` takes element `[0]`.  `instructor_fuzzy`
and `timespan` are only ever tested for presence / read, so presence is
a `Bool` and the span the optional number of minutes. -/
structure RawQuery where
  text : Option String := none
  name : Option String := none
  desc : Option String := none
  courseid : Option String := none
  instructor : Option (List String) := none
  instructor_fuzzy : Bool := false
  building : Option String := none
  room : Option String := none
  datetime : Option NYDateTime := none
  timespan : Option Int := none

/-- The empty raw query dict. -/
def RawQuery.empty : RawQuery := {}

/-- The regular expression test of the `CourseSearcher.index` setter on
the character list, Python `re.match('^(f|s|m1|m2)\d{2}$', value)`.
Python's `$` also matches just before a final newline, so a single
trailing `'\n'` is accepted; `\d` is modelled as an ASCII digit
(Python's `\d` also accepts other Unicode decimal digits; no caller
produces those). -/
def matchesShortTermD : List Char → Bool
  | ['f', a, b] => a.isDigit && b.isDigit
  | ['s', a, b] => a.isDigit && b.isDigit
  | ['m', '1', a, b] => a.isDigit && b.isDigit
  | ['m', '2', a, b] => a.isDigit && b.isDigit
  | ['f', a, b, '\n'] => a.isDigit && b.isDigit
  | ['s', a, b, '\n'] => a.isDigit && b.isDigit
  | ['m', '1', a, b, '\n'] => a.isDigit && b.isDigit
  | ['m', '2', a, b, '\n'] => a.isDigit && b.isDigit
  | _ => false

/-- The regular expression test of the `CourseSearcher.index` setter. -/
def matchesShortTerm (s : String) : Bool := matchesShortTermD s.data

/-- The `CourseSearcher.index` setter: the stored `_index` as a function
of the assigned value and of today's date (`utils.get_current_course_index`
reads `datetime.date.today()`). -/
def setIndex (pfx : String) (today : PDate) (value : Option String) : String :=
  match value with
  | none => pfx ++ "*"
  | some v =>
    if v = "current" then get_course_index_from_date pfx today
    else if matchesShortTerm v then pfx ++ v
    else v

/-- `text_query` of `CourseSearcher.generate_query`. -/
def text_query (text : String) : Query :=
  .boolQ [] [.matchQ "name" (.str text), .matchQ "desc" (.str text)]

/-- `name_query` of `CourseSearcher.generate_query`. -/
def name_query (name : String) : Query :=
  .boolQ [.matchQ "name" (.str name)] []

/-- `desc_query` of `CourseSearcher.generate_query`. -/
def desc_query (desc : String) : Query :=
  .boolQ [.matchQ "desc" (.str desc)] []

/-- `id_query` of `CourseSearcher.generate_query`: when `self.index` is
`None` the term query is wrapped together with a `should` match on the
current semester (from today's date); the index setter never stores
`None`, so the searcher only ever reaches the plain branch. -/
def id_query (courseid : String) (index : Option String) (today : PDate) : Query :=
  match index with
  | none =>
    .boolQ [.term "id" courseid] [.matchQ "semester" (.str (get_semester_from_date today))]
  | some _ => .term "id" courseid

/-- The `text` / `name` / `desc` clause assembly of
`CourseSearcher.generate_query` applied to the accumulator `q`. -/
def text_name_desc_part (rq : RawQuery) (q : Query) : Query :=
  match rq.text with
  | some text => qand q (text_query text)
  | none =>
    let q1 := match rq.name with
      | some name => qand q (name_query name)
      | none => q
    match rq.desc with
    | some desc => qand q1 (desc_query desc)
    | none => q1

/-- The `courseid` clause assembly of `CourseSearcher.generate_query`. -/
def courseid_part (rq : RawQuery) (index : Option String) (today : PDate)
    (q : Query) : Query :=
  match rq.courseid with
  | some cid => qand q (id_query cid index today)
  | none => q

/-- The value of the variable `query` of `CourseSearcher.generate_query`
just before the nested lecture/section queries are combined in. -/
def preQuery (rq : RawQuery) (index : Option String) (today : PDate) : Query :=
  courseid_part rq index today (text_name_desc_part rq .matchAll)

/-- `lec_name_query`: the instructor clause on the lectures path;
`Q()` when no instructor was asked for. -/
def lec_name_query (rq : RawQuery) : Query :=
  match rq.instructor with
  | some l =>
    .matchQ "lectures.instructors"
      (.obj (String.intercalate " " l) "and"
        (if rq.instructor_fuzzy then some "AUTO" else none))
  | none => .matchAll

/-- `sec_name_query`: the instructor clause on the sections path. -/
def sec_name_query (rq : RawQuery) : Query :=
  match rq.instructor with
  | some l =>
    .matchQ "sections.instructors"
      (.obj (String.intercalate " " l) "and"
        (if rq.instructor_fuzzy then some "AUTO" else none))
  | none => .matchAll

/-- `lec_building_query`: the building is upper-cased. -/
def lec_building_query (b : String) : Query :=
  .matchQ "lectures.times.building" (.str b.toUpper)

/-- `sec_building_query`. -/
def sec_building_query (b : String) : Query :=
  .matchQ "sections.times.building" (.str b.toUpper)

/-- `lec_room_query`: the room is upper-cased. -/
def lec_room_query (r : String) : Query :=
  .matchQ "lectures.times.room" (.str r.toUpper)

/-- `sec_room_query`. -/
def sec_room_query (r : String) : Query :=
  .matchQ "sections.times.room" (.str r.toUpper)

/-- `lec_time_query`: day of week and time window on the lectures path.
`day` is `isoweekday % 7` of the window's begin instant, the begin bound
is the instant's time shifted by the timespan, the end bound the
instant's own time, both rendered with `strftime("%I:%M%p")`. -/
def lec_time_query (dt : NYDateTime) (span : Int) : Query :=
  .boolQ
    [.matchQ "lectures.times.days" (.nat (isoweekday dt.year dt.month dt.day % 7)),
     .range "lectures.times.begin"
       ⟨some (strftime_IMp (shiftedMinutes dt.minute span)), none, "hh:mma"⟩,
     .range "lectures.times.end" ⟨none, some (strftime_IMp dt.minute), "hh:mma"⟩]
    []

/-- `sec_time_query`: the same window on the sections path. -/
def sec_time_query (dt : NYDateTime) (span : Int) : Query :=
  .boolQ
    [.matchQ "sections.times.days" (.nat (isoweekday dt.year dt.month dt.day % 7)),
     .range "sections.times.begin"
       ⟨some (strftime_IMp (shiftedMinutes dt.minute span)), none, "hh:mma"⟩,
     .range "sections.times.end" ⟨none, some (strftime_IMp dt.minute), "hh:mma"⟩]
    []

/-- The optional day/time queries: reading `raw_query['timespan'][0]`
raises a `KeyError` (`none`) when `datetime` is present without
`timespan`. -/
def time_queries (rq : RawQuery) : Option (Option Query × Option Query) :=
  match rq.datetime with
  | none => some (none, none)
  | some dt =>
    match rq.timespan with
    | none => none
    | some span => some (some (lec_time_query dt span), some (sec_time_query dt span))

/-- The values of the dict `lec_nested_queries` in insertion order:
building, room, time. -/
def lec_values (rq : RawQuery) (timeQ : Option Query) : List Query :=
  (match rq.building with
   | some b => [lec_building_query b]
   | none => []) ++
  (match rq.room with
   | some r => [lec_room_query r]
   | none => []) ++
  timeQ.toList

/-- The values of the dict `sec_nested_queries` in insertion order. -/
def sec_values (rq : RawQuery) (timeQ : Option Query) : List Query :=
  (match rq.building with
   | some b => [sec_building_query b]
   | none => []) ++
  (match rq.room with
   | some r => [sec_room_query r]
   | none => []) ++
  timeQ.toList

/-- `_lec_temp`: the fold `q &= value` over `lec_nested_queries`,
starting from `Q()`. -/
def lec_temp (rq : RawQuery) (timeQ : Option Query) : Query :=
  (lec_values rq timeQ).foldl qand .matchAll

/-- `_sec_temp`. -/
def sec_temp (rq : RawQuery) (timeQ : Option Query) : Query :=
  (sec_values rq timeQ).foldl qand .matchAll

/-- `combined_lec_query`: the nested query on path `lectures` with
`inner_hits` enabled, wrapping the nested query on path `lectures.times`
(no `inner_hits`) conjoined with the instructor clause. -/
def combined_lec_query (rq : RawQuery) (timeQ : Option Query) : Query :=
  .nested "lectures"
    (qand (.nested "lectures.times" (lec_temp rq timeQ) false) (lec_name_query rq))
    true

/-- `combined_sec_query`. -/
def combined_sec_query (rq : RawQuery) (timeQ : Option Query) : Query :=
  .nested "sections"
    (qand (.nested "sections.times" (sec_temp rq timeQ) false) (sec_name_query rq))
    true

/-- `CourseSearcher.generate_query`, as a function of the raw query,
`self.index` and today's date.  `none` is the `KeyError` that a raw
query with `datetime` but no `timespan` raises. -/
def CourseSearcher.generate_query (rq : RawQuery) (index : Option String)
    (today : PDate) : Option Query :=
  match time_queries rq with
  | none => none
  | some (ltq, stq) =>
    some (qand (preQuery rq index today)
      (.boolQ [qor (combined_lec_query rq ltq) (combined_sec_query rq stq)] []))

/-- `FCESearcher.generate_query`.  `none` is the `IndexError` raised by
`raw_query['instructor'][0]` on an empty list (no caller builds one). -/
def FCESearcher.generate_query (rq : RawQuery) : Option Query :=
  let q := Query.matchAll
  let q := match rq.courseid with
    | some cid => qand q (.term "courseid" cid)
    | none => q
  match rq.instructor with
  | some [] => none
  | some (i :: _) =>
    some (qand q (.matchQ "instructor" (.obj i "and" none)))
  | none => some q

/-- A JSON-like Python value, enough to carry exception info objects,
response bodies and hit dicts. -/
inductive JVal where
  | jnull
  | jstr (s : String)
  | jnum (n : Int)
  | jdict (entries : List (String × JVal))
  | jlist (xs : List JVal)

/-- A Python dict with string keys, in insertion order. -/
abbrev Obj := List (String × JVal)

/-- Python `d.get(k)`: the value under the first matching key. -/
def objGet (es : Obj) (k : String) : Option JVal :=
  (List.find? (fun p => p.1 == k) es).map (fun p => p.2)

/-- Python `d[k] = v`: replace in place, or append a new key. -/
def objSet (es : Obj) (k : String) (v : JVal) : Obj :=
  if (List.any es (fun p => p.1 == k)) then
    List.map (fun p => if p.1 == k then (k, v) else p) es
  else es ++ [(k, v)]

/-- An `elasticsearch_dsl` `Response`, through the interface
`search.py` uses: `hits.total`, iteration over the hits (each hit
already taken `to_dict()`), and `to_dict()` of the whole response. -/
structure ESResponse where
  hitsTotal : Nat
  hits : List Obj
  body : Obj

/-- What `Searcher.fetch` can hand on: the `Response` of a successful
`execute`, or the `info` object of a caught backend exception. -/
inductive ESResult where
  | raw (info : JVal)
  | resp (r : ESResponse)

/-- The exceptions the backend `s.execute()` call can raise.
`NotFoundError` and `RequestError` are subclasses of `TransportError`;
each carries its `info` object.  Any other exception is not caught by
`Searcher.fetch`. -/
inductive ESException where
  | notFoundError (info : JVal)
  | requestError (info : JVal)
  | transportError (info : JVal)
  | otherError

/-- A backend: what `s.execute()` does for a given query, index, size,
doc_type and sort. -/
def Backend :=
  Query → String → Nat → String → Option (List String) → Except ESException ESResponse

/-- `Searcher.fetch` applied to the outcome of `s.execute()`: the three
transport exceptions are caught and their `info` object returned as the
response; any other exception propagates (`none`). -/
def fetch (outcome : Except ESException ESResponse) : Option ESResult :=
  match outcome with
  | .ok r => some (.resp r)
  | .error (.notFoundError info) => some (.raw info)
  | .error (.requestError info) => some (.raw info)
  | .error (.transportError info) => some (.raw info)
  | .error .otherError => none

/-- `has_error`: the response is a dict and its `'status'` is not `None`. -/
def has_error : ESResult → Bool
  | .raw (.jdict es) =>
    match objGet es "status" with
    | some .jnull => false
    | some _ => true
    | none => false
  | .raw _ => false
  | .resp _ => false

/-- `response_to_dict`: a dict response is returned as is, anything else
gets `.to_dict()` — an `AttributeError` (`none`) when the response is
neither a dict nor a `Response`. -/
def response_to_dict : ESResult → Option Obj
  | .raw (.jdict es) => some es
  | .raw _ => none
  | .resp r => some r.body

/-- The output dict of the courses endpoints: exactly the keys
`'response'` and `'courses'`. -/
structure CoursesOutput where
  response : Obj
  courses : List Obj

/-- The output dict of `get_course_by_id`: exactly the keys
`'response'` and `'course'`. -/
structure CourseOutput where
  response : Obj
  course : Option Obj

/-- The output dict of the FCE endpoints: exactly the keys `'response'`
and `'fces'`. -/
structure FcesOutput where
  response : Obj
  fces : List Obj

/-- `format_courses_output`.  With an error response the courses list
stays empty.  Iterating a non-error dict response runs the loop over
the dict's keys, so a non-empty one raises an `AttributeError` on
`hit.to_dict()` (`none`); any other non-`Response` value already fails
inside `response_to_dict`. -/
def format_courses_output (res : ESResult) : Option CoursesOutput :=
  match response_to_dict res with
  | none => none
  | some rd =>
    if has_error res then some ⟨rd, []⟩
    else
      match res with
      | .resp r => some ⟨rd, r.hits⟩
      | .raw (.jdict es) => if es.isEmpty then some ⟨rd, []⟩ else none
      | .raw _ => none

/-- `format_fces_output`, the same shape for the FCE endpoints. -/
def format_fces_output (res : ESResult) : Option FcesOutput :=
  match response_to_dict res with
  | none => none
  | some rd =>
    if has_error res then some ⟨rd, []⟩
    else
      match res with
      | .resp r => some ⟨rd, r.hits⟩
      | .raw (.jdict es) => if es.isEmpty then some ⟨rd, []⟩ else none
      | .raw _ => none

/-- `CourseSearcher(...).execute()`: set the index through the setter,
generate the query and fetch. -/
def CourseSearcher.execute (pfx : String) (today : PDate) (be : Backend)
    (rq : RawQuery) (indexArg : Option String) (size : Nat) : Option ESResult :=
  let idx := setIndex pfx today indexArg
  match CourseSearcher.generate_query rq (some idx) today with
  | none => none
  | some q => fetch (be q idx size "course" none)

/-- The regular expression test of `get_course_by_id` /
`get_courses_by_id`, Python `re.search("^\d\d-\d\d\d$", courseid)`.
Python's `$` also matches just before a final newline, so a trailing
`'\n'` is accepted; `\d` is modelled as an ASCII digit. -/
def matchesCourseId (s : String) : Bool :=
  match s.data with
  | [a, b, '-', c, d, e] =>
    a.isDigit && b.isDigit && c.isDigit && d.isDigit && e.isDigit
  | [a, b, '-', c, d, e, '\n'] =>
    a.isDigit && b.isDigit && c.isDigit && d.isDigit && e.isDigit
  | _ => false

/-- `get_course_by_id(courseid, term)`: an ill-formed courseid returns
the initial output without touching the backend; `response[0]` on an
empty hit list, or `response.hits` on a dict, raises (`none`). -/
def get_course_by_id (pfx : String) (today : PDate) (be : Backend)
    (courseid : String) (term : Option String) : Option CourseOutput :=
  if matchesCourseId courseid then
    match CourseSearcher.execute pfx today be { courseid := some courseid } term 5 with
    | none => none
    | some res =>
      match response_to_dict res with
      | none => none
      | some rd =>
        if has_error res then some ⟨rd, none⟩
        else
          match res with
          | .resp r =>
            if r.hitsTotal ≠ 0 then
              match r.hits with
              | [] => none
              | h :: _ => some ⟨rd, some h⟩
            else some ⟨rd, none⟩
          | .raw _ => none
  else some ⟨[], none⟩

/-- `get_courses_by_id(courseid)`: an ill-formed courseid returns the
initial output; an empty courses list gets `response['status'] = 404`. -/
def get_courses_by_id (pfx : String) (today : PDate) (be : Backend)
    (courseid : String) : Option CoursesOutput :=
  if matchesCourseId courseid then
    match CourseSearcher.execute pfx today be { courseid := some courseid } none 5 with
    | none => none
    | some res =>
      match format_courses_output res with
      | none => none
      | some out =>
        if out.courses.length = 0 then
          some ⟨objSet out.response "status" (.jnum 404), out.courses⟩
        else some out
  else some ⟨[], []⟩

/-- Python `int(s)`: optional surrounding whitespace, an optional sign,
then at least one digit (digit-group underscores are not modelled; no
caller uses them). -/
def pyParseInt (s : String) : Option Int :=
  let val : List Char → Int :=
    fun ds => List.foldl (fun acc c => 10 * acc + (c.toNat - 48)) 0 ds
  let trimmed :=
    ((s.data.dropWhile Char.isWhitespace).reverse.dropWhile Char.isWhitespace).reverse
  match trimmed with
  | [] => none
  | '-' :: ds =>
    if ds ≠ [] ∧ List.all ds Char.isDigit then some (-(val ds)) else none
  | '+' :: ds =>
    if ds ≠ [] ∧ List.all ds Char.isDigit then some (val ds) else none
  | ds =>
    if List.all ds Char.isDigit then some (val ds) else none

/-- Modelled from the spec: the message constants of `common/Message`
(the module is not among the sources); the claims only pass them
through, so each is its own symbolic string. -/
def SPAN_PARSE_FAIL : String := "SPAN_PARSE_FAIL"

/-- Modelled from the spec: see `SPAN_PARSE_FAIL`. -/
def DATETIME_PARSE_FAIL : String := "DATETIME_PARSE_FAIL"

/-- Modelled from the spec: see `SPAN_PARSE_FAIL`. -/
def EMPTY_SEARCH : String := "EMPTY_SEARCH"

/-- The `{'status': 400, 'error': {'message': msg}}` response the course
endpoints build themselves. -/
def badRequest (msg : String) : Obj :=
  [("status", .jnum 400), ("error", .jdict [("message", .jstr msg)])]

/-- `get_courses_by_datetime(datetime_str, span_str, size)`.  The span
limits live in `config/course.py` (not among the sources) and are the
arguments `spanLo`/`spanHi`; `arrow.get` is the external parser
`arrowGet`, and `arrow.now()` the value `nowDT` (both already converted
to New York civil time, see `NYDateTime`). -/
def get_courses_by_datetime (pfx : String) (today : PDate) (be : Backend)
    (arrowGet : String → Option NYDateTime) (nowDT : NYDateTime)
    (spanLo spanHi : Int) (datetime_str : String) (span_str : Option String)
    (size : Nat) : Option CoursesOutput :=
  let spanRes : Except CoursesOutput Int :=
    match span_str with
    | none => .ok 0
    | some ss =>
      match pyParseInt ss with
      | none => .error ⟨badRequest SPAN_PARSE_FAIL, []⟩
      | some v =>
        if spanLo ≤ v ∧ v ≤ spanHi then .ok v
        else .error ⟨badRequest SPAN_PARSE_FAIL, []⟩
  match spanRes with
  | .error out => some out
  | .ok span_minutes =>
    let dtRes : Except CoursesOutput NYDateTime :=
      if datetime_str = "now" then .ok nowDT
      else
        match arrowGet datetime_str with
        | some dt => .ok dt
        | none => .error ⟨badRequest DATETIME_PARSE_FAIL, []⟩
    match dtRes with
    | .error out => some out
    | .ok dt =>
      let index := get_course_index_from_date pfx dt.dateOf
      match CourseSearcher.execute pfx today be
          { datetime := some dt, timespan := some span_minutes }
          (some index) size with
      | none => none
      | some res => format_courses_output res

/-- `get_courses_by_searching(args, size)`: `args` is the request's
dict of string arguments. -/
def get_courses_by_searching (pfx : String) (today : PDate) (be : Backend)
    (args : List (String × String)) (size : Nat) : Option CoursesOutput :=
  if args.length = 0 then some ⟨badRequest EMPTY_SEARCH, []⟩
  else
    let get : String → Option String :=
      fun k => (List.find? (fun p => p.1 == k) args).map (fun p => p.2)
    let rq : RawQuery :=
      { text := get "text"
        name := if (get "text").isSome then none else get "name"
        desc := if (get "text").isSome then none else get "desc"
        instructor := (get "instructor").map (fun s => [s])
        courseid := get "courseid"
        building := get "building"
        room := get "room" }
    let index : Option String :=
      if (get "term").isSome then some "current" else none
    match CourseSearcher.execute pfx today be rq index size with
    | none => none
    | some res => format_courses_output res

/-! Lemmas about the embedding. -/

theorem str_data_append (s t : String) : (s ++ t).data = s.data ++ t.data := rfl

theorem str_empty_append (s : String) : "" ++ s = s := by
  cases s
  rfl

theorem qand_matchAll_left (q : Query) : qand .matchAll q = q := by
  cases q <;> rfl

theorem qand_matchAll_right (q : Query) : qand q .matchAll = q := by
  cases q <;> rfl

/-- The digits dropped from `str(year)` are digit characters. -/
theorem year_suffix_all_digits (y : Nat) :
    ((natDigits y).drop 2).all Char.isDigit = true := by
  rw [List.all_eq_true]
  intro c hc
  exact natDigits_all_isDigit y c (List.mem_of_mem_drop hc)

/-- For a four-digit year, `str(year)[2:]` is exactly the two least
significant decimal digits. -/
theorem year_suffix_four (y : Nat) (h1 : 1000 ≤ y) (h2 : y ≤ 9999) :
    (natDigits y).drop 2 = [Nat.digitChar (y / 10 % 10), Nat.digitChar (y % 10)] := by
  rw [natDigits_four y h1 h2]
  rfl

/-- The short term always starts with `'f'`, `'s'` or `'m'` followed by
digit characters only. -/
theorem short_shape (d : PDate) :
    ∃ c rest, (get_semester_short_from_date d).data = c :: rest ∧
      (c = 'f' ∨ c = 's' ∨ c = 'm') ∧ rest.all Char.isDigit = true := by
  unfold get_semester_short_from_date
  have hall := year_suffix_all_digits d.year
  split_ifs with h1 h2 h3
  · exact ⟨'f', (natDigits d.year).drop 2, rfl, Or.inl rfl, hall⟩
  · exact ⟨'s', (natDigits d.year).drop 2, rfl, Or.inr (Or.inl rfl), hall⟩
  · refine ⟨'m', '1' :: (natDigits d.year).drop 2, rfl, Or.inr (Or.inr rfl), ?_⟩
    simpa using hall
  · refine ⟨'m', '2' :: (natDigits d.year).drop 2, rfl, Or.inr (Or.inr rfl), ?_⟩
    simpa using hall

/-- Splitting `l1 ++ c :: l2 = [w, x, y]` with `l1` non-empty puts `c`
at position 1 or 2. -/
theorem append_cons_eq_three (l1 : List Char) (c : Char) (l2 : List Char)
    (w x y : Char) (hne : l1 ≠ [])
    (heq : l1 ++ c :: l2 = [w, x, y]) : c = x ∨ c = y := by
  rcases l1 with _ | ⟨a1, l1⟩
  · exact absurd rfl hne
  simp only [List.cons_append, List.cons.injEq] at heq
  obtain ⟨-, heq⟩ := heq
  rcases l1 with _ | ⟨a2, l1⟩
  · simp only [List.nil_append, List.cons.injEq] at heq
    exact Or.inl heq.1
  simp only [List.cons_append, List.cons.injEq] at heq
  obtain ⟨-, heq⟩ := heq
  rcases l1 with _ | ⟨a3, l1⟩
  · simp only [List.nil_append, List.cons.injEq] at heq
    exact Or.inr heq.1
  simp only [List.cons_append, List.cons.injEq] at heq
  obtain ⟨-, heq⟩ := heq
  exact absurd heq (by simp)

/-- Splitting `l1 ++ c :: l2 = [w, x, y, z]` with `l1` non-empty puts
`c` at position 1, 2 or 3. -/
theorem append_cons_eq_four (l1 : List Char) (c : Char) (l2 : List Char)
    (w x y z : Char) (hne : l1 ≠ [])
    (heq : l1 ++ c :: l2 = [w, x, y, z]) : c = x ∨ c = y ∨ c = z := by
  rcases l1 with _ | ⟨a1, l1⟩
  · exact absurd rfl hne
  simp only [List.cons_append, List.cons.injEq] at heq
  obtain ⟨-, heq⟩ := heq
  rcases l1 with _ | ⟨a2, l1⟩
  · simp only [List.nil_append, List.cons.injEq] at heq
    exact Or.inl heq.1
  rcases append_cons_eq_three (a2 :: l1) c l2 x y z (by simp) heq with h | h
  · exact Or.inr (Or.inl h)
  · exact Or.inr (Or.inr h)

/-- Splitting `l1 ++ c :: l2 = [w, x, y, z, u]` with `l1` non-empty
puts `c` at position 1, 2, 3 or 4. -/
theorem append_cons_eq_five (l1 : List Char) (c : Char) (l2 : List Char)
    (w x y z u : Char) (hne : l1 ≠ [])
    (heq : l1 ++ c :: l2 = [w, x, y, z, u]) : c = x ∨ c = y ∨ c = z ∨ c = u := by
  rcases l1 with _ | ⟨a1, l1⟩
  · exact absurd rfl hne
  simp only [List.cons_append, List.cons.injEq] at heq
  obtain ⟨-, heq⟩ := heq
  rcases l1 with _ | ⟨a2, l1⟩
  · simp only [List.nil_append, List.cons.injEq] at heq
    exact Or.inl heq.1
  rcases append_cons_eq_four (a2 :: l1) c l2 x y z u (by simp) heq with h | h | h
  · exact Or.inr (Or.inl h)
  · exact Or.inr (Or.inr (Or.inl h))
  · exact Or.inr (Or.inr (Or.inr h))

/-- Every character after position 0 of a short-term match is a digit
or the final newline: whatever a non-empty `l1` is, the character
following it is one of those. -/
theorem matchesShortTermD_pos_digit (l1 : List Char) (c : Char) (l2 : List Char)
    (hne : l1 ≠ []) (h : matchesShortTermD (l1 ++ c :: l2) = true) :
    c.isDigit = true ∨ c = '\n' := by
  unfold matchesShortTermD at h
  split at h
  · next a b heq =>
    rw [Bool.and_eq_true] at h
    rcases append_cons_eq_three l1 c l2 'f' a b hne heq with rfl | rfl
    · exact Or.inl h.1
    · exact Or.inl h.2
  · next a b heq =>
    rw [Bool.and_eq_true] at h
    rcases append_cons_eq_three l1 c l2 's' a b hne heq with rfl | rfl
    · exact Or.inl h.1
    · exact Or.inl h.2
  · next a b heq =>
    rw [Bool.and_eq_true] at h
    rcases append_cons_eq_four l1 c l2 'm' '1' a b hne heq with rfl | rfl | rfl
    · exact Or.inl (by decide)
    · exact Or.inl h.1
    · exact Or.inl h.2
  · next a b heq =>
    rw [Bool.and_eq_true] at h
    rcases append_cons_eq_four l1 c l2 'm' '2' a b hne heq with rfl | rfl | rfl
    · exact Or.inl (by decide)
    · exact Or.inl h.1
    · exact Or.inl h.2
  · next a b heq =>
    rw [Bool.and_eq_true] at h
    rcases append_cons_eq_four l1 c l2 'f' a b '\n' hne heq with rfl | rfl | rfl
    · exact Or.inl h.1
    · exact Or.inl h.2
    · exact Or.inr rfl
  · next a b heq =>
    rw [Bool.and_eq_true] at h
    rcases append_cons_eq_four l1 c l2 's' a b '\n' hne heq with rfl | rfl | rfl
    · exact Or.inl h.1
    · exact Or.inl h.2
    · exact Or.inr rfl
  · next a b heq =>
    rw [Bool.and_eq_true] at h
    rcases append_cons_eq_five l1 c l2 'm' '1' a b '\n' hne heq with rfl | rfl | rfl | rfl
    · exact Or.inl (by decide)
    · exact Or.inl h.1
    · exact Or.inl h.2
    · exact Or.inr rfl
  · next a b heq =>
    rw [Bool.and_eq_true] at h
    rcases append_cons_eq_five l1 c l2 'm' '2' a b '\n' hne heq with rfl | rfl | rfl | rfl
    · exact Or.inl (by decide)
    · exact Or.inl h.1
    · exact Or.inl h.2
    · exact Or.inr rfl
  · exact absurd h (by simp)

/-- `'f'`, `'s'` and `'m'` are not digit characters. -/
theorem fsm_not_digit (c : Char) (hc : c = 'f' ∨ c = 's' ∨ c = 'm') :
    c.isDigit = false := by
  rcases hc with rfl | rfl | rfl <;> decide

/-- The course index derived from a date never collides with the
`'current'` keyword of the index setter. -/
theorem course_index_ne_current (pfx : String) (d : PDate) :
    get_course_index_from_date pfx d ≠ "current" := by
  obtain ⟨c, rest, hdata, hc, -⟩ := short_shape d
  intro he
  have h2 : pfx.data ++ c :: rest = "current".data := by
    rw [← hdata, ← str_data_append]
    unfold get_course_index_from_date at he
    rw [he]
  have hcmem : c ∈ "current".data := by
    rw [← h2]
    exact List.mem_append_right _ (List.mem_cons_self c rest)
  rw [show "current".data = ['c', 'u', 'r', 'r', 'e', 'n', 't'] from rfl] at hcmem
  rcases hc with rfl | rfl | rfl <;> revert hcmem <;> decide

/-- With a non-empty prefix, the course index derived from a date fails
the short-term regular expression of the index setter. -/
theorem course_index_not_short (pfx : String) (d : PDate) (hp : pfx.data ≠ []) :
    matchesShortTerm (get_course_index_from_date pfx d) = false := by
  obtain ⟨c, rest, hdata, hc, -⟩ := short_shape d
  cases hB : matchesShortTerm (get_course_index_from_date pfx d) with
  | false => rfl
  | true =>
    exfalso
    unfold matchesShortTerm at hB
    rw [show (get_course_index_from_date pfx d).data = pfx.data ++ c :: rest by
          rw [← hdata]; rfl] at hB
    rcases matchesShortTermD_pos_digit pfx.data c rest hp hB with hd | hnl
    · rw [fsm_not_digit c hc] at hd
      exact Bool.false_ne_true hd
    · rcases hc with rfl | rfl | rfl <;> exact absurd hnl (by decide)

/-- The index setter passes a derived course index through unchanged:
this is the index `get_courses_by_datetime` ends up querying. -/
theorem setIndex_course_index (pfx : String) (t d : PDate) :
    setIndex pfx t (some (get_course_index_from_date pfx d)) =
      get_course_index_from_date pfx d := by
  show (if get_course_index_from_date pfx d = "current" then
          get_course_index_from_date pfx t
        else if matchesShortTerm (get_course_index_from_date pfx d) = true then
          pfx ++ get_course_index_from_date pfx d
        else get_course_index_from_date pfx d) = get_course_index_from_date pfx d
  rw [if_neg (course_index_ne_current pfx d)]
  by_cases hp : pfx.data = []
  · have hpe : pfx = "" := by
      cases pfx with
      | mk l =>
        have hl : l = [] := hp
        subst hl
        decide
    rw [hpe]
    split
    · exact str_empty_append _
    · rfl
  · rw [course_index_not_short pfx d hp]
    simp

/-- The setter maps a value matching the short-term regular expression
to the prefixed index. -/
theorem setIndex_short (pfx : String) (t : PDate) (v : String)
    (hne : v ≠ "current") (hm : matchesShortTerm v = true) :
    setIndex pfx t (some v) = pfx ++ v := by
  show (if v = "current" then get_course_index_from_date pfx t
        else if matchesShortTerm v = true then pfx ++ v else v) = pfx ++ v
  rw [if_neg hne, if_pos hm]

/-- The short term of a date is never the keyword `'current'`. -/
theorem short_ne_current (d : PDate) :
    get_semester_short_from_date d ≠ "current" := by
  have h := course_index_ne_current "" d
  unfold get_course_index_from_date at h
  rwa [str_empty_append] at h

/-- For a four-digit year the short term matches the setter's regular
expression. -/
theorem short_matches_of_four_digit (d : PDate) (hy1 : 1000 ≤ d.year)
    (hy2 : d.year ≤ 9999) :
    matchesShortTerm (get_semester_short_from_date d) = true := by
  have d1 : (Nat.digitChar (d.year / 10 % 10)).isDigit = true :=
    digitChar_isDigit _ (by omega)
  have d2 : (Nat.digitChar (d.year % 10)).isDigit = true :=
    digitChar_isDigit _ (by omega)
  unfold matchesShortTerm get_semester_short_from_date
  rw [year_suffix_four d.year hy1 hy2]
  split_ifs
  · show matchesShortTermD
      ['f', Nat.digitChar (d.year / 10 % 10), Nat.digitChar (d.year % 10)] = true
    simp [matchesShortTermD, d1, d2]
  · show matchesShortTermD
      ['s', Nat.digitChar (d.year / 10 % 10), Nat.digitChar (d.year % 10)] = true
    simp [matchesShortTermD, d1, d2]
  · show matchesShortTermD
      ['m', '1', Nat.digitChar (d.year / 10 % 10), Nat.digitChar (d.year % 10)] = true
    simp [matchesShortTermD, d1, d2]
  · show matchesShortTermD
      ['m', '2', Nat.digitChar (d.year / 10 % 10), Nat.digitChar (d.year % 10)] = true
    simp [matchesShortTermD, d1, d2]

@[simp] theorem mk_year (y m dd : Nat) : (PDate.mk y m dd).year = y := rfl

@[simp] theorem mk_month (y m dd : Nat) : (PDate.mk y m dd).month = m := rfl

@[simp] theorem mk_day (y m dd : Nat) : (PDate.mk y m dd).day = dd := rfl

/-- The six intervals of `get_mini` cover every valid date: the
fallthrough value `0` is unreachable. -/
theorem get_mini_range (d : PDate) (h : ValidDate d) :
    1 ≤ get_mini d ∧ get_mini d ≤ 6 := by
  have h31 := validDate_day_le_31 d h
  obtain ⟨-, -, h3, h4, h5, -⟩ := h
  unfold get_mini
  simp only [dateLt, dateLe, mk_year, mk_month, mk_day, true_and, eq_self_iff_true]
  split_ifs <;> omega

/-- Which `get_mini` values each calendar range of the claim lands in. -/
theorem get_mini_season (d : PDate) (hv : ValidDate d) :
    (dateLe ⟨d.year, 8, 21⟩ d → 1 ≤ get_mini d ∧ get_mini d ≤ 2) ∧
    (dateLe d ⟨d.year, 5, 15⟩ → 3 ≤ get_mini d ∧ get_mini d ≤ 4) ∧
    (dateLe ⟨d.year, 5, 16⟩ d → dateLe d ⟨d.year, 7, 1⟩ → get_mini d = 5) ∧
    (dateLe ⟨d.year, 7, 2⟩ d → dateLe d ⟨d.year, 8, 20⟩ → get_mini d = 6) := by
  have h31 := validDate_day_le_31 d hv
  obtain ⟨-, -, h3, h4, h5, -⟩ := hv
  unfold get_mini
  simp only [dateLt, dateLe, mk_year, mk_month, mk_day, true_and, eq_self_iff_true]
  refine ⟨?_, ?_, ?_, ?_⟩
  · intro h
    split_ifs <;> omega
  · intro h
    split_ifs <;> omega
  · intro h h2
    split_ifs <;> omega
  · intro h h2
    split_ifs <;> omega

/-- The last two decimal digits of the year, zero padded: the `YY` of
the claims. -/
def lastTwoDigits (y : Nat) : String :=
  String.mk [Nat.digitChar (y % 100 / 10), Nat.digitChar (y % 10)]

/-- For a four-digit year, `str(year)[2:]` is the last two digits. -/
theorem year_suffix_lastTwo (y : Nat) (h1 : 1000 ≤ y) (h2 : y ≤ 9999) :
    String.mk ((natDigits y).drop 2) = lastTwoDigits y := by
  rw [year_suffix_four y h1 h2]
  unfold lastTwoDigits
  have e : y % 100 / 10 = y / 10 % 10 := by omega
  rw [e]

/-! The claims. -/

/-- C3, counterexample to the claim as stated: on the valid date
999-09-01 the code returns `"f9"` — `str(999)[2:]` — while the claimed
`'f' + YY` with `YY` the last two digits of the year is `"f99"`. -/
theorem c3_year_suffix_cex :
    ValidDate ⟨999, 9, 1⟩ ∧
    get_semester_short_from_date ⟨999, 9, 1⟩ = "f9" ∧
    get_semester_short_from_date ⟨999, 9, 1⟩ ≠ "f" ++ lastTwoDigits 999 := by
  refine ⟨by decide, by decide, by decide⟩

/-- C3 (amended: for dates with four-digit years, where `str(year)[2:]`
is the last two digits of the year): the calendar-to-semester
classifier returns `'f' + YY` on August 21 – December 31, `'s' + YY` on
January 1 – May 15, `'m1' + YY` on May 16 – July 1 and `'m2' + YY` on
July 2 – August 20, and `get_semester_from_date` returns the long names
`Fall` / `Spring` / `Summer One` / `Summer Two` followed by the full
year. -/
theorem c3_semester_classifier (d : PDate) (hv : ValidDate d) (hy : 1000 ≤ d.year) :
    (dateLe ⟨d.year, 8, 21⟩ d →
      get_semester_short_from_date d = "f" ++ lastTwoDigits d.year ∧
      get_semester_from_date d = "Fall " ++ pyStr d.year) ∧
    (dateLe d ⟨d.year, 5, 15⟩ →
      get_semester_short_from_date d = "s" ++ lastTwoDigits d.year ∧
      get_semester_from_date d = "Spring " ++ pyStr d.year) ∧
    (dateLe ⟨d.year, 5, 16⟩ d → dateLe d ⟨d.year, 7, 1⟩ →
      get_semester_short_from_date d = "m1" ++ lastTwoDigits d.year ∧
      get_semester_from_date d = "Summer One " ++ pyStr d.year) ∧
    (dateLe ⟨d.year, 7, 2⟩ d → dateLe d ⟨d.year, 8, 20⟩ →
      get_semester_short_from_date d = "m2" ++ lastTwoDigits d.year ∧
      get_semester_from_date d = "Summer Two " ++ pyStr d.year) := by
  have hy2 : d.year ≤ 9999 := hv.2.1
  have hsfx := year_suffix_lastTwo d.year hy hy2
  have hs := get_mini_season d hv
  refine ⟨fun h => ?_, fun h => ?_, fun h h2 => ?_, fun h h2 => ?_⟩
  · obtain ⟨hm1, hm2⟩ := hs.1 h
    constructor
    · unfold get_semester_short_from_date
      rw [if_pos ⟨hm1, hm2⟩, hsfx]
    · unfold get_semester_from_date
      rw [if_pos ⟨hm1, hm2⟩,
          (by decide : ("Fall" : String) ++ " " = "Fall ")]
  · obtain ⟨hm1, hm2⟩ := hs.2.1 h
    constructor
    · unfold get_semester_short_from_date
      rw [if_neg (by omega), if_pos ⟨hm1, hm2⟩, hsfx]
    · unfold get_semester_from_date
      rw [if_neg (by omega), if_pos ⟨hm1, hm2⟩,
          (by decide : ("Spring" : String) ++ " " = "Spring ")]
  · have hm := hs.2.2.1 h h2
    constructor
    · unfold get_semester_short_from_date
      rw [if_neg (by omega), if_neg (by omega), if_pos hm, hsfx]
    · unfold get_semester_from_date
      rw [if_neg (by omega), if_neg (by omega), if_pos hm,
          (by decide : ("Summer One" : String) ++ " " = "Summer One ")]
  · have hm := hs.2.2.2 h h2
    constructor
    · unfold get_semester_short_from_date
      rw [if_neg (by omega), if_neg (by omega), if_neg (by omega), hsfx]
    · unfold get_semester_from_date
      rw [if_neg (by omega), if_neg (by omega), if_neg (by omega),
          (by decide : ("Summer Two" : String) ++ " " = "Summer Two ")]

/-- C3 witness: the classifier at 2017-10-03. -/
theorem c3_semester_classifier_witness :
    get_semester_short_from_date ⟨2017, 10, 3⟩ = "f" ++ lastTwoDigits 2017 ∧
    get_semester_from_date ⟨2017, 10, 3⟩ = "Fall " ++ pyStr 2017 :=
  (c3_semester_classifier ⟨2017, 10, 3⟩ (by decide) (by decide)).1 (by decide)

/-- C9, counterexample to the claim as stated: on the valid date
999-01-01 the short term is `"s9"`, which does not match
`^(f|s|m1|m2)\d{2}$`, and the index setter stores it unchanged instead
of prefixing it. -/
theorem c9_short_term_cex :
    ValidDate ⟨999, 1, 1⟩ ∧
    get_semester_short_from_date ⟨999, 1, 1⟩ = "s9" ∧
    matchesShortTerm (get_semester_short_from_date ⟨999, 1, 1⟩) = false ∧
    setIndex "idx-" ⟨2017, 10, 3⟩ (some (get_semester_short_from_date ⟨999, 1, 1⟩)) =
      "s9" ∧
    ("s9" : String) ≠ "idx-" ++ "s9" := by
  refine ⟨by decide, by decide, by decide, by decide, by decide⟩

/-- C9 (amended: the regular-expression part holds for dates with
four-digit years): `get_mini` of a valid date is always 1–6 — the
fallback 0 is unreachable — and for a four-digit year the short term
matches `^(f|s|m1|m2)\d{2}$`, so the index setter maps it to
`ES_COURSE_INDEX_PREFIX` plus that string. -/
theorem c9_mini_range_short_index (d : PDate) (hv : ValidDate d) :
    (1 ≤ get_mini d ∧ get_mini d ≤ 6) ∧
    (1000 ≤ d.year →
      matchesShortTerm (get_semester_short_from_date d) = true ∧
      ∀ pfx t, setIndex pfx t (some (get_semester_short_from_date d)) =
        pfx ++ get_semester_short_from_date d) := by
  refine ⟨get_mini_range d hv, fun hy => ?_⟩
  have hm := short_matches_of_four_digit d hy hv.2.1
  exact ⟨hm, fun pfx t => setIndex_short pfx t _ (short_ne_current d) hm⟩

/-- A raw query without `courseid` generates the same query whatever
today's date is: today only enters through the `id_query` branch. -/
theorem generate_query_today (rq : RawQuery) (i : Option String) (t1 t2 : PDate)
    (h : rq.courseid = none) :
    CourseSearcher.generate_query rq i t1 = CourseSearcher.generate_query rq i t2 := by
  unfold CourseSearcher.generate_query preQuery courseid_part
  rw [h]

/-- `execute` on a date-derived index fetches exactly that index. -/
theorem execute_course_index (pfx : String) (today : PDate) (be : Backend)
    (rq : RawQuery) (d : PDate) (sz : Nat) :
    CourseSearcher.execute pfx today be rq (some (get_course_index_from_date pfx d)) sz =
      (match CourseSearcher.generate_query rq
          (some (get_course_index_from_date pfx d)) today with
        | none => none
        | some q => fetch (be q (get_course_index_from_date pfx d) sz "course" none)) := by
  unfold CourseSearcher.execute
  rw [setIndex_course_index]

/-- The whole of `get_courses_by_datetime` is independent of today's
date: the index comes from the queried datetime. -/
theorem gcbd_today_irrel (pfx : String) (t1 t2 : PDate) (be : Backend)
    (ag : String → Option NYDateTime) (nowDT : NYDateTime) (lo hi : Int)
    (s : String) (ss : Option String) (sz : Nat) :
    get_courses_by_datetime pfx t1 be ag nowDT lo hi s ss sz =
      get_courses_by_datetime pfx t2 be ag nowDT lo hi s ss sz := by
  have core : ∀ span : Int,
      (match CourseSearcher.execute pfx t1 be
          { datetime := some (if s = "now" then nowDT else (ag s).getD nowDT),
            timespan := some span }
          (some (get_course_index_from_date pfx
            (if s = "now" then nowDT else (ag s).getD nowDT).dateOf)) sz with
        | none => none
        | some res => format_courses_output res) =
      (match CourseSearcher.execute pfx t2 be
          { datetime := some (if s = "now" then nowDT else (ag s).getD nowDT),
            timespan := some span }
          (some (get_course_index_from_date pfx
            (if s = "now" then nowDT else (ag s).getD nowDT).dateOf)) sz with
        | none => none
        | some res => format_courses_output res) := by
    intro span
    rw [execute_course_index, execute_course_index,
        generate_query_today _ _ t1 t2 rfl]
  unfold get_courses_by_datetime
  cases ss with
  | none =>
    by_cases hnow : s = "now"
    · simpa [hnow] using core 0
    · cases hag : ag s with
      | none => simp [hnow, hag]
      | some dt => simpa [hnow, hag] using core 0
  | some t =>
    cases hp : pyParseInt t with
    | none => simp [hp]
    | some v =>
      by_cases hr : lo ≤ v ∧ v ≤ hi
      · simp only [hp]
        rw [if_pos hr]
        by_cases hnow : s = "now"
        · simpa [hnow] using core v
        · cases hag : ag s with
          | none => simp [hnow, hag]
          | some dt => simpa [hnow, hag] using core v
      · simp [hp, hr]

/-- `get_courses_by_datetime` with a parsed datetime runs the searcher
on the index derived from that datetime's date. -/
theorem gcbd_queries_dt_index (pfx : String) (today : PDate) (be : Backend)
    (ag : String → Option NYDateTime) (nowDT : NYDateTime) (lo hi : Int)
    (s : String) (dt : NYDateTime) (sz : Nat)
    (hs : ag s = some dt) (hnow : s ≠ "now") :
    get_courses_by_datetime pfx today be ag nowDT lo hi s none sz =
      (match CourseSearcher.execute pfx today be
          { datetime := some dt, timespan := some 0 }
          (some (get_course_index_from_date pfx dt.dateOf)) sz with
        | none => none
        | some res => format_courses_output res) := by
  unfold get_courses_by_datetime
  simp [hnow, hs]

/-- A backend that always answers with an empty successful response. -/
def be0 : Backend := fun _ _ _ _ _ => .ok ⟨0, [], []⟩

/-- A sample New York instant: 2017-10-03, 10:00. -/
def dt0 : NYDateTime := ⟨2017, 10, 3, 600⟩

/-- A parser that always answers `dt0`. -/
def ag0 : String → Option NYDateTime := fun _ => some dt0

/-- C9 witness: the valid date 2018-02-14. -/
theorem c9_mini_range_short_index_witness :
    (1 ≤ get_mini ⟨2018, 2, 14⟩ ∧ get_mini ⟨2018, 2, 14⟩ ≤ 6) ∧
    (1000 ≤ (2018 : Nat) →
      matchesShortTerm (get_semester_short_from_date ⟨2018, 2, 14⟩) = true ∧
      ∀ pfx t, setIndex pfx t (some (get_semester_short_from_date ⟨2018, 2, 14⟩)) =
        pfx ++ get_semester_short_from_date ⟨2018, 2, 14⟩) :=
  c9_mini_range_short_index ⟨2018, 2, 14⟩ (by decide)

/-- C4: index selection.  `None` yields prefix + `'*'`; `'current'`
yields the index of today's date; a value matching
`^(f|s|m1|m2)\d{2}$` yields prefix + value; any other value is stored
unchanged; and `get_courses_by_datetime` queries the index derived from
the queried datetime's date — the setter passes that index through —
independently of today's date. -/
theorem c4_index_selection (pfx v w : String) (today t2 : PDate) (be : Backend)
    (ag : String → Option NYDateTime) (nowDT : NYDateTime) (lo hi : Int)
    (s : String) (ss : Option String) (dt : NYDateTime) (sz : Nat)
    (hv1 : matchesShortTerm v = true) (hv2 : v ≠ "current")
    (hw1 : w ≠ "current") (hw2 : matchesShortTerm w = false)
    (hs : ag s = some dt) (hnow : s ≠ "now") :
    setIndex pfx today none = pfx ++ "*" ∧
    setIndex pfx today (some "current") = get_course_index_from_date pfx today ∧
    setIndex pfx today (some v) = pfx ++ v ∧
    setIndex pfx today (some w) = w ∧
    get_courses_by_datetime pfx today be ag nowDT lo hi s none sz =
      (match CourseSearcher.execute pfx today be
          { datetime := some dt, timespan := some 0 }
          (some (get_course_index_from_date pfx dt.dateOf)) sz with
        | none => none
        | some res => format_courses_output res) ∧
    setIndex pfx today (some (get_course_index_from_date pfx dt.dateOf)) =
      get_course_index_from_date pfx dt.dateOf ∧
    get_courses_by_datetime pfx today be ag nowDT lo hi s ss sz =
      get_courses_by_datetime pfx t2 be ag nowDT lo hi s ss sz := by
  refine ⟨rfl, ?_, setIndex_short pfx today v hv2 hv1, ?_,
    gcbd_queries_dt_index pfx today be ag nowDT lo hi s dt sz hs hnow,
    setIndex_course_index pfx today dt.dateOf,
    gcbd_today_irrel pfx today t2 be ag nowDT lo hi s ss sz⟩
  · show (if ("current" : String) = "current" then
        get_course_index_from_date pfx today
      else if matchesShortTerm "current" = true then pfx ++ "current"
      else "current") = get_course_index_from_date pfx today
    rw [if_pos rfl]
  · show (if w = "current" then get_course_index_from_date pfx today
      else if matchesShortTerm w = true then pfx ++ w else w) = w
    rw [if_neg hw1, if_neg (by simp [hw2])]

/-- C4 witness: concrete values for each hypothesis; the matching value
`"f17\n"` exercises the `$`-before-final-newline case of the regular
expression. -/
theorem c4_index_selection_witness :
    setIndex "courses-" ⟨2025, 1, 3⟩ none = "courses-" ++ "*" ∧
    setIndex "courses-" ⟨2025, 1, 3⟩ (some "current") =
      get_course_index_from_date "courses-" ⟨2025, 1, 3⟩ ∧
    setIndex "courses-" ⟨2025, 1, 3⟩ (some "f17\n") = "courses-" ++ "f17\n" ∧
    setIndex "courses-" ⟨2025, 1, 3⟩ (some "zzz") = "zzz" ∧
    get_courses_by_datetime "courses-" ⟨2025, 1, 3⟩ be0 ag0 dt0 0 300
        "2017-10-03" none 200 =
      (match CourseSearcher.execute "courses-" ⟨2025, 1, 3⟩ be0
          { datetime := some dt0, timespan := some 0 }
          (some (get_course_index_from_date "courses-" dt0.dateOf)) 200 with
        | none => none
        | some res => format_courses_output res) ∧
    setIndex "courses-" ⟨2025, 1, 3⟩
        (some (get_course_index_from_date "courses-" dt0.dateOf)) =
      get_course_index_from_date "courses-" dt0.dateOf ∧
    get_courses_by_datetime "courses-" ⟨2025, 1, 3⟩ be0 ag0 dt0 0 300
        "2017-10-03" none 200 =
      get_courses_by_datetime "courses-" ⟨1999, 7, 4⟩ be0 ag0 dt0 0 300
        "2017-10-03" none 200 :=
  c4_index_selection "courses-" "f17\n" "zzz" ⟨2025, 1, 3⟩ ⟨1999, 7, 4⟩ be0 ag0 dt0
    0 300 "2017-10-03" none dt0 200 (by decide) (by decide) (by decide) (by decide)
    rfl (by decide)

/-- C1: with a `datetime` instant and a `timespan` in the raw query,
the generated query carries on both the lectures and the sections path
a time clause whose `days` field is `isoweekday % 7` of the instant
(Sunday encoded as 0, taken from the window's begin instant whatever
the timespan), whose `begin` must be `lte` the instant's time shifted
forward by the timespan, and whose `end` must be `gt` the instant's own
time, both rendered as 12-hour `hh:mma` strings. -/
theorem c1_datetime_window (rq : RawQuery) (dt : NYDateTime) (n : Int)
    (idx : Option String) (today : PDate)
    (h1 : rq.datetime = some dt) (h2 : rq.timespan = some n) :
    CourseSearcher.generate_query rq idx today =
      some (qand (preQuery rq idx today)
        (.boolQ [qor (combined_lec_query rq (some (lec_time_query dt n)))
                     (combined_sec_query rq (some (sec_time_query dt n)))] [])) ∧
    lec_time_query dt n =
      .boolQ
        [.matchQ "lectures.times.days"
           (.nat (isoweekday dt.year dt.month dt.day % 7)),
         .range "lectures.times.begin"
           ⟨some (strftime_IMp (shiftedMinutes dt.minute n)), none, "hh:mma"⟩,
         .range "lectures.times.end"
           ⟨none, some (strftime_IMp dt.minute), "hh:mma"⟩] [] ∧
    sec_time_query dt n =
      .boolQ
        [.matchQ "sections.times.days"
           (.nat (isoweekday dt.year dt.month dt.day % 7)),
         .range "sections.times.begin"
           ⟨some (strftime_IMp (shiftedMinutes dt.minute n)), none, "hh:mma"⟩,
         .range "sections.times.end"
           ⟨none, some (strftime_IMp dt.minute), "hh:mma"⟩] [] := by
  refine ⟨?_, rfl, rfl⟩
  unfold CourseSearcher.generate_query time_queries
  rw [h1, h2]

/-- The raw query `get_courses_by_datetime` builds for `dt0` and a
90-minute span. -/
def rqdt : RawQuery := { datetime := some dt0, timespan := some 90 }

/-- C1 witness: the window at `dt0` with a 90-minute span. -/
theorem c1_datetime_window_witness :
    CourseSearcher.generate_query rqdt (some "i") ⟨2025, 1, 3⟩ =
      some (qand (preQuery rqdt (some "i") ⟨2025, 1, 3⟩)
        (.boolQ [qor (combined_lec_query rqdt (some (lec_time_query dt0 90)))
                     (combined_sec_query rqdt (some (sec_time_query dt0 90)))] [])) ∧
    lec_time_query dt0 90 =
      .boolQ
        [.matchQ "lectures.times.days"
           (.nat (isoweekday dt0.year dt0.month dt0.day % 7)),
         .range "lectures.times.begin"
           ⟨some (strftime_IMp (shiftedMinutes dt0.minute 90)), none, "hh:mma"⟩,
         .range "lectures.times.end"
           ⟨none, some (strftime_IMp dt0.minute), "hh:mma"⟩] [] ∧
    sec_time_query dt0 90 =
      .boolQ
        [.matchQ "sections.times.days"
           (.nat (isoweekday dt0.year dt0.month dt0.day % 7)),
         .range "sections.times.begin"
           ⟨some (strftime_IMp (shiftedMinutes dt0.minute 90)), none, "hh:mma"⟩,
         .range "sections.times.end"
           ⟨none, some (strftime_IMp dt0.minute), "hh:mma"⟩] [] :=
  c1_datetime_window rqdt dt0 90 (some "i") ⟨2025, 1, 3⟩ rfl rfl

/-- C8: whatever the raw query (also one with none of the instructor,
building, room or datetime parameters), the generated query conjoins a
disjunction of two nested queries — path `lectures` wrapping a nested
query on path `lectures.times`, and path `sections` wrapping a nested
query on path `sections.times` — each outer nested query with
`inner_hits` enabled. -/
theorem c8_nested_structure (rq : RawQuery) (idx : Option String) (today : PDate)
    (ltq stq : Option Query) (h : time_queries rq = some (ltq, stq)) :
    CourseSearcher.generate_query rq idx today =
      some (qand (preQuery rq idx today)
        (.boolQ [qor (combined_lec_query rq ltq) (combined_sec_query rq stq)] [])) ∧
    combined_lec_query rq ltq =
      .nested "lectures"
        (qand (.nested "lectures.times" (lec_temp rq ltq) false)
          (lec_name_query rq)) true ∧
    combined_sec_query rq stq =
      .nested "sections"
        (qand (.nested "sections.times" (sec_temp rq stq) false)
          (sec_name_query rq)) true := by
  refine ⟨?_, rfl, rfl⟩
  unfold CourseSearcher.generate_query
  rw [h]

/-- C8 witness: the empty raw query. -/
theorem c8_nested_structure_witness :
    CourseSearcher.generate_query RawQuery.empty (some "i") ⟨2025, 1, 3⟩ =
      some (qand (preQuery RawQuery.empty (some "i") ⟨2025, 1, 3⟩)
        (.boolQ [qor (combined_lec_query RawQuery.empty none)
                     (combined_sec_query RawQuery.empty none)] [])) ∧
    combined_lec_query RawQuery.empty none =
      .nested "lectures"
        (qand (.nested "lectures.times" (lec_temp RawQuery.empty none) false)
          (lec_name_query RawQuery.empty)) true ∧
    combined_sec_query RawQuery.empty none =
      .nested "sections"
        (qand (.nested "sections.times" (sec_temp RawQuery.empty none) false)
          (sec_name_query RawQuery.empty)) true :=
  c8_nested_structure RawQuery.empty (some "i") ⟨2025, 1, 3⟩ none none rfl

/-- C2: boolean clauses are assembled only from the parameters that are
present.  `text` adds a should-clause matching name or desc and makes
`name` / `desc` ignored; otherwise `name` and `desc` each add a
must-match clause; `courseid` adds a term clause on `id` (the searcher
always holds a non-`None` index, the argument `sIdx`); `instructor`
adds a match clause on the instructors fields whose fuzziness is
`'AUTO'` iff `instructor_fuzzy` is present; `building` and `room` add
upper-cased match clauses; `FCESearcher.generate_query` adds clauses
only for `courseid` and `instructor`. -/
theorem c2_clause_assembly (rq : RawQuery) (q : Query) (sIdx : String)
    (today : PDate) (t nm ds cid b r i : String) (l itl : List String)
    (tq : Option Query) :
    (rq.text = some t → text_name_desc_part rq q = qand q (text_query t)) ∧
    (rq.text = none → rq.name = some nm → rq.desc = some ds →
      text_name_desc_part rq q = qand (qand q (name_query nm)) (desc_query ds)) ∧
    (rq.text = none → rq.name = some nm → rq.desc = none →
      text_name_desc_part rq q = qand q (name_query nm)) ∧
    (rq.text = none → rq.name = none → rq.desc = some ds →
      text_name_desc_part rq q = qand q (desc_query ds)) ∧
    (rq.text = none → rq.name = none → rq.desc = none →
      text_name_desc_part rq q = q) ∧
    text_query t = .boolQ [] [.matchQ "name" (.str t), .matchQ "desc" (.str t)] ∧
    name_query nm = .boolQ [.matchQ "name" (.str nm)] [] ∧
    desc_query ds = .boolQ [.matchQ "desc" (.str ds)] [] ∧
    (rq.courseid = some cid →
      courseid_part rq (some sIdx) today q = qand q (.term "id" cid)) ∧
    (rq.courseid = none → courseid_part rq (some sIdx) today q = q) ∧
    (rq.instructor = some l →
      lec_name_query rq =
        .matchQ "lectures.instructors"
          (.obj (String.intercalate " " l) "and"
            (if rq.instructor_fuzzy then some "AUTO" else none)) ∧
      sec_name_query rq =
        .matchQ "sections.instructors"
          (.obj (String.intercalate " " l) "and"
            (if rq.instructor_fuzzy then some "AUTO" else none))) ∧
    (rq.instructor = none →
      lec_name_query rq = .matchAll ∧ sec_name_query rq = .matchAll) ∧
    (lec_building_query b = .matchQ "lectures.times.building" (.str b.toUpper) ∧
     sec_building_query b = .matchQ "sections.times.building" (.str b.toUpper) ∧
     lec_room_query r = .matchQ "lectures.times.room" (.str r.toUpper) ∧
     sec_room_query r = .matchQ "sections.times.room" (.str r.toUpper)) ∧
    (rq.building = some b → rq.room = some r →
      lec_values rq tq = [lec_building_query b, lec_room_query r] ++ tq.toList ∧
      sec_values rq tq = [sec_building_query b, sec_room_query r] ++ tq.toList) ∧
    (rq.building = none → rq.room = none →
      lec_values rq tq = tq.toList ∧ sec_values rq tq = tq.toList) ∧
    (rq.courseid = some cid → rq.instructor = some (i :: itl) →
      FCESearcher.generate_query rq =
        some (qand (.term "courseid" cid) (.matchQ "instructor" (.obj i "and" none)))) ∧
    (rq.courseid = some cid → rq.instructor = none →
      FCESearcher.generate_query rq = some (.term "courseid" cid)) ∧
    (rq.courseid = none → rq.instructor = some (i :: itl) →
      FCESearcher.generate_query rq = some (.matchQ "instructor" (.obj i "and" none))) ∧
    (rq.courseid = none → rq.instructor = none →
      FCESearcher.generate_query rq = some .matchAll) := by
  refine ⟨?_, ?_, ?_, ?_, ?_, rfl, rfl, rfl, ?_, ?_, ?_, ?_, ⟨rfl, rfl, rfl, rfl⟩,
    ?_, ?_, ?_, ?_, ?_, ?_⟩
  · intro h
    simp [text_name_desc_part, h]
  · intro h1 h2 h3
    simp [text_name_desc_part, h1, h2, h3]
  · intro h1 h2 h3
    simp [text_name_desc_part, h1, h2, h3]
  · intro h1 h2 h3
    simp [text_name_desc_part, h1, h2, h3]
  · intro h1 h2 h3
    simp [text_name_desc_part, h1, h2, h3]
  · intro h
    simp [courseid_part, h, id_query]
  · intro h
    simp [courseid_part, h]
  · intro h
    constructor
    · simp [lec_name_query, h]
    · simp [sec_name_query, h]
  · intro h
    constructor
    · simp [lec_name_query, h]
    · simp [sec_name_query, h]
  · intro h1 h2
    constructor
    · simp [lec_values, h1, h2]
    · simp [sec_values, h1, h2]
  · intro h1 h2
    constructor
    · simp [lec_values, h1, h2]
    · simp [sec_values, h1, h2]
  · intro h1 h2
    simp [FCESearcher.generate_query, h1, h2]
    rfl
  · intro h1 h2
    simp [FCESearcher.generate_query, h1, h2, qand_matchAll_left]
  · intro h1 h2
    simp [FCESearcher.generate_query, h1, h2, qand_matchAll_left]
  · intro h1 h2
    simp [FCESearcher.generate_query, h1, h2]

/-- C5, counterexample to the claim as stated: the info object of a
caught backend exception need not carry a `'status'` key — for the
empty info dict, `fetch` passes it through but `has_error` is false. -/
theorem c5_has_error_cex :
    fetch (.error (.notFoundError (.jdict []))) = some (.raw (.jdict [])) ∧
    has_error (.raw (.jdict [])) = false :=
  ⟨rfl, rfl⟩

/-- C5 (amended: the info object must be a dict with a non-`None`
`'status'` for the rest to follow): `Searcher.fetch` catches
`NotFoundError`, `RequestError` and `TransportError` and returns the
exception's info object as the response; when that object is a dict
with a non-`None` `'status'`, `has_error` is true and the two format
functions pass the object through unchanged as `output['response']`
with the `'courses'` / `'fces'` list left empty. -/
theorem c5_error_passthrough (info v : JVal) (es : Obj)
    (hst : objGet es "status" = some v) (hv : v ≠ .jnull) :
    fetch (.error (.notFoundError info)) = some (.raw info) ∧
    fetch (.error (.requestError info)) = some (.raw info) ∧
    fetch (.error (.transportError info)) = some (.raw info) ∧
    has_error (.raw (.jdict es)) = true ∧
    format_courses_output (.raw (.jdict es)) = some ⟨es, []⟩ ∧
    format_fces_output (.raw (.jdict es)) = some ⟨es, []⟩ := by
  have herr : has_error (.raw (.jdict es)) = true := by
    show (match objGet es "status" with
          | some JVal.jnull => false
          | some _ => true
          | none => false) = true
    rw [hst]
    cases v with
    | jnull => exact absurd rfl hv
    | jstr s => rfl
    | jnum n => rfl
    | jdict d => rfl
    | jlist xs => rfl
  refine ⟨rfl, rfl, rfl, herr, ?_, ?_⟩
  · simp [format_courses_output, response_to_dict, herr]
  · simp [format_fces_output, response_to_dict, herr]

/-- C5 witness: a 404 info dict. -/
theorem c5_error_passthrough_witness :
    fetch (.error (.notFoundError (.jdict [("status", .jnum 404)]))) =
      some (.raw (.jdict [("status", .jnum 404)])) ∧
    fetch (.error (.requestError (.jdict [("status", .jnum 404)]))) =
      some (.raw (.jdict [("status", .jnum 404)])) ∧
    fetch (.error (.transportError (.jdict [("status", .jnum 404)]))) =
      some (.raw (.jdict [("status", .jnum 404)])) ∧
    has_error (.raw (.jdict [("status", .jnum 404)])) = true ∧
    format_courses_output (.raw (.jdict [("status", .jnum 404)])) =
      some ⟨[("status", .jnum 404)], []⟩ ∧
    format_fces_output (.raw (.jdict [("status", .jnum 404)])) =
      some ⟨[("status", .jnum 404)], []⟩ :=
  c5_error_passthrough (.jdict [("status", .jnum 404)]) (.jnum 404)
    [("status", .jnum 404)] rfl (by simp)

/-- C7, counterexample to the claim as stated: a caught exception whose
info object is `None` is a backend response for which
`format_courses_output` raises (`response_to_dict` calls `.to_dict()`
on `None`) instead of returning the two-key dict. -/
theorem c7_output_shape_cex :
    format_courses_output (.raw .jnull) = none :=
  rfl

/-- C7 (amended: for every backend response that is a `Response` or an
error dict with a non-`None` `'status'`): the formatters return a dict
with exactly the keys `'response'` (a dict) and `'courses'` / `'fces'`
(a list) — the record types `CoursesOutput` / `FcesOutput` carry
exactly those two fields; on an error the list is empty, otherwise it
holds one dict per hit in the response's order. -/
theorem c7_output_shape (r : ESResponse) (v : JVal) (es : Obj)
    (hst : objGet es "status" = some v) (hv : v ≠ .jnull) :
    format_courses_output (.resp r) = some ⟨r.body, r.hits⟩ ∧
    format_fces_output (.resp r) = some ⟨r.body, r.hits⟩ ∧
    format_courses_output (.raw (.jdict es)) = some ⟨es, []⟩ ∧
    format_fces_output (.raw (.jdict es)) = some ⟨es, []⟩ := by
  have herr : has_error (.raw (.jdict es)) = true := by
    show (match objGet es "status" with
          | some JVal.jnull => false
          | some _ => true
          | none => false) = true
    rw [hst]
    cases v with
    | jnull => exact absurd rfl hv
    | jstr s => rfl
    | jnum n => rfl
    | jdict d => rfl
    | jlist xs => rfl
  refine ⟨rfl, rfl, ?_, ?_⟩
  · simp [format_courses_output, response_to_dict, herr]
  · simp [format_fces_output, response_to_dict, herr]

/-- A backend response with two hits. -/
def r2 : ESResponse :=
  ⟨2, [[("id", .jstr "15-122")], [("id", .jstr "15-150")]], [("took", .jnum 3)]⟩

/-- C7 witness: a two-hit response and a 400 error dict. -/
theorem c7_output_shape_witness :
    format_courses_output (.resp r2) = some ⟨r2.body, r2.hits⟩ ∧
    format_fces_output (.resp r2) = some ⟨r2.body, r2.hits⟩ ∧
    format_courses_output (.raw (.jdict [("status", .jnum 400)])) =
      some ⟨[("status", .jnum 400)], []⟩ ∧
    format_fces_output (.raw (.jdict [("status", .jnum 400)])) =
      some ⟨[("status", .jnum 400)], []⟩ :=
  c7_output_shape r2 (.jnum 400) [("status", .jnum 400)] rfl (by simp)

/-- C6, counterexample to the claim as stated: with a backend that
never raises, the module still produces error responses of its own —
status 400 for an empty search and for an unparseable datetime. -/
theorem c6_constructed_error_cex :
    get_courses_by_searching "courses-" ⟨2025, 1, 3⟩ be0 [] 100 =
      some ⟨badRequest EMPTY_SEARCH, []⟩ ∧
    get_courses_by_datetime "courses-" ⟨2025, 1, 3⟩ be0 (fun _ => none) dt0
        0 300 "garbage" none 200 =
      some ⟨badRequest DATETIME_PARSE_FAIL, []⟩ ∧
    objGet (badRequest EMPTY_SEARCH) "status" = some (.jnum 400) := by
  refine ⟨rfl, ?_, rfl⟩
  rfl

/-- C6 (amended): besides passing backend exceptions through, the
course endpoints construct error responses of their own: status 400
with a message for an empty search, for a timespan that fails to parse
or lies outside the configured limits, and for a datetime string the
parser rejects (`get_courses_by_id` likewise sets status 404 itself on
zero hits, see C10). -/
theorem c6_constructed_errors (pfx : String) (today : PDate) (be : Backend)
    (ag : String → Option NYDateTime) (nowDT : NYDateTime) (lo hi : Int)
    (s t : String) (args : List (String × String)) (sz : Nat) (v : Int) :
    (args.length = 0 →
      get_courses_by_searching pfx today be args sz =
        some ⟨badRequest EMPTY_SEARCH, []⟩) ∧
    (pyParseInt t = none →
      get_courses_by_datetime pfx today be ag nowDT lo hi s (some t) sz =
        some ⟨badRequest SPAN_PARSE_FAIL, []⟩) ∧
    (pyParseInt t = some v → ¬(lo ≤ v ∧ v ≤ hi) →
      get_courses_by_datetime pfx today be ag nowDT lo hi s (some t) sz =
        some ⟨badRequest SPAN_PARSE_FAIL, []⟩) ∧
    (s ≠ "now" → ag s = none →
      get_courses_by_datetime pfx today be ag nowDT lo hi s none sz =
        some ⟨badRequest DATETIME_PARSE_FAIL, []⟩) := by
  refine ⟨?_, ?_, ?_, ?_⟩
  · intro h
    simp [get_courses_by_searching, h]
  · intro h
    simp [get_courses_by_datetime, h]
  · intro h1 h2
    simp [get_courses_by_datetime, h1, h2]
  · intro h1 h2
    simp [get_courses_by_datetime, h1, h2]

/-- A backend returning a successful response with zero hits. -/
def r1 : ESResponse := ⟨0, [], [("took", .jnum 1)]⟩

/-- The constant zero-hit backend. -/
def be1 : Backend := fun _ _ _ _ _ => .ok r1

/-- C10: a courseid that fails `^\d\d-\d\d\d$` (Python semantics) makes
`get_course_by_id` return `{'response': {}, 'course': None}` and
`get_courses_by_id` return `{'response': {}, 'courses': []}` whatever
the backend does — no query is issued and no 404 status is set — while
a well-formed id whose query comes back with zero hits gets
`response['status'] = 404` from `get_courses_by_id`. -/
theorem c10_courseid_guard (pfx : String) (today : PDate) (be : Backend)
    (cs : String) (term : Option String) (r : ESResponse)
    (hm : matchesCourseId cs = false)
    (hbe : ∀ q i sz dtp srt, be q i sz dtp srt = .ok r) (hh : r.hits = []) :
    get_course_by_id pfx today be cs term = some ⟨[], none⟩ ∧
    get_courses_by_id pfx today be cs = some ⟨[], []⟩ ∧
    objGet ([] : Obj) "status" = none ∧
    (∀ cid, matchesCourseId cid = true →
      get_courses_by_id pfx today be cid =
        some ⟨objSet r.body "status" (.jnum 404), []⟩) := by
  refine ⟨?_, ?_, rfl, ?_⟩
  · simp [get_course_by_id, hm]
  · simp [get_courses_by_id, hm]
  · intro cid hcid
    simp [get_courses_by_id, hcid, CourseSearcher.execute,
      CourseSearcher.generate_query, time_queries, hbe, fetch,
      format_courses_output, response_to_dict, has_error, hh]

/-- C10 witness: the ill-formed id `"abc"` and the well-formed id
`"12-345"` against the zero-hit backend. -/
theorem c10_courseid_guard_witness :
    get_course_by_id "courses-" ⟨2025, 1, 3⟩ be1 "abc" none = some ⟨[], none⟩ ∧
    get_courses_by_id "courses-" ⟨2025, 1, 3⟩ be1 "abc" = some ⟨[], []⟩ ∧
    objGet ([] : Obj) "status" = none ∧
    (∀ cid, matchesCourseId cid = true →
      get_courses_by_id "courses-" ⟨2025, 1, 3⟩ be1 cid =
        some ⟨objSet r1.body "status" (.jnum 404), []⟩) :=
  c10_courseid_guard "courses-" ⟨2025, 1, 3⟩ be1 "abc" none r1 (by decide)
    (fun _ _ _ _ _ => rfl) rfl

end CourseApi
